import Mathlib

/-!
Shallow embedding of the invoice-bot pipeline (src/telegram_bot.py).

Python values flowing through the pipeline (results of `json.loads`, plus the
`None` that `dict.get` yields for a missing key) are modelled by `Val`.
Python `float` is idealized as `ℚ`: every claim under scrutiny concerns the
parsing / defaulting / branching logic, which is exact, not float rounding.
-/

inductive Val where
  | vnull : Val
  | vbool (b : Bool) : Val
  | vnum (q : ℚ) : Val
  | vstr (s : String) : Val
  | vlist (xs : List Val) : Val
  | vdict (kvs : List (String × Val)) : Val

/-- Model of Python `str.strip()`: drop leading and trailing whitespace. -/
def pyStrip (s : String) : String :=
  String.mk (((s.toList.dropWhile Char.isWhitespace).reverse.dropWhile Char.isWhitespace).reverse)

/-- Model of Python `str.lower()`. -/
def pyLower (s : String) : String :=
  String.mk (s.toList.map Char.toLower)

/-- Idealized rendering of a Python number: integers render as usual;
non-integer rationals (standing in for floats) render as `num/den`.
No claim depends on the exact text of `str()` applied to a non-string value. -/
def ratRepr (q : ℚ) : String :=
  if q.den = 1 then toString q.num else toString q.num ++ "/" ++ toString q.den

mutual
/-- Model of Python `repr` on JSON-like values (string escaping elided;
no claim depends on the exact text produced for containers). -/
def pyRepr : Val → String
  | .vnull => "None"
  | .vbool b => if b then "True" else "False"
  | .vnum q => ratRepr q
  | .vstr s => "'" ++ s ++ "'"
  | .vlist xs => "[" ++ pyReprList xs ++ "]"
  | .vdict kvs => "\x7b" ++ pyReprDict kvs ++ "\x7d"

def pyReprList : List Val → String
  | [] => ""
  | [x] => pyRepr x
  | x :: xs => pyRepr x ++ ", " ++ pyReprList xs

def pyReprDict : List (String × Val) → String
  | [] => ""
  | [kv] => "'" ++ kv.1 ++ "': " ++ pyRepr kv.2
  | kv :: kvs => "'" ++ kv.1 ++ "': " ++ pyRepr kv.2 ++ ", " ++ pyReprDict kvs
end

/-- Model of Python `str()`: identity on strings, `repr`-like elsewhere. -/
def pyStr (v : Val) : String :=
  match v with
  | .vstr s => s
  | v => pyRepr v

/-- Embedding of `safe_str` (src/telegram_bot.py:88-89):
`str(x).strip() if x is not None else ""`. -/
def safe_str (v : Val) : String :=
  match v with
  | .vnull => ""
  | v => pyStrip (pyStr v)

/-- Python `dict.get(k)` on an association list: the value bound to the last
occurrence of `k` (as `json.loads` keeps the last duplicate), `vnull` when
absent (Python's `None`). -/
def dictGet (kvs : List (String × Val)) (k : String) : Val :=
  (kvs.foldl (fun acc kv => if kv.1 = k then some kv.2 else acc) none).getD .vnull

def Val.isList : Val → Bool
  | .vlist _ => true
  | _ => false

def digitVal (c : Char) : Nat := c.toNat - 48

def digitsToNat (cs : List Char) : Nat :=
  cs.foldl (fun a c => a * 10 + digitVal c) 0

/-- The exact rational with sign `neg`, numerator `n` and denominator `d`. -/
def mkRatSigned (neg : Bool) (n d : Nat) : ℚ :=
  if neg then mkRat (-(n : Int)) d else mkRat (n : Int) d

/-- Core of the Python `float()` literal grammar on a character list:
optional sign, then `digits [. digits] | . digits`, then an optional
`e`/`E` exponent with mandatory digits, and nothing else. The value
`±mantissa·10^(±exp)` is assembled as one exact fraction. -/
def pyFloatCore (cs0 : List Char) : Option ℚ :=
  let sgnCs : Bool × List Char :=
    match cs0 with
    | '+' :: t => (false, t)
    | '-' :: t => (true, t)
    | t => (false, t)
  let ipR := sgnCs.2.span Char.isDigit
  let fpR : Option (List Char) × List Char :=
    match ipR.2 with
    | '.' :: t =>
      let dR := t.span Char.isDigit
      (some dR.1, dR.2)
    | t => (none, t)
  if ipR.1.isEmpty && (match fpR.1 with | some d => d.isEmpty | none => true) then none
  else
    let fracDigits := match fpR.1 with | some d => d | none => []
    let mantNum : Nat := digitsToNat (ipR.1 ++ fracDigits)
    let mantDen : Nat := 10 ^ fracDigits.length
    match fpR.2 with
    | [] => some (mkRatSigned sgnCs.1 mantNum mantDen)
    | e :: t =>
      if e = 'e' ∨ e = 'E' then
        let esCs : Bool × List Char :=
          match t with
          | '+' :: u => (true, u)
          | '-' :: u => (false, u)
          | u => (true, u)
        let edR := esCs.2.span Char.isDigit
        if edR.1.isEmpty ∨ ¬ edR.2.isEmpty then none
        else if esCs.1 then
          some (mkRatSigned sgnCs.1 (mantNum * 10 ^ digitsToNat edR.1) mantDen)
        else
          some (mkRatSigned sgnCs.1 mantNum (mantDen * 10 ^ digitsToNat edR.1))
      else none

/-- Model of Python `float(s)` on strings: surrounding whitespace is stripped,
then the finite decimal/scientific literal grammar is applied. The special
forms `inf`/`infinity`/`nan` (not representable in `ℚ`) and digit-group
underscores are outside the modelled subset; no claim exercises them. -/
def pyFloat? (s : String) : Option ℚ :=
  pyFloatCore (pyStrip s).toList

/-- Model of `str.replace(",", "")`: remove every comma. -/
def removeCommas (s : String) : String :=
  String.mk (s.toList.filter (fun c => c ≠ ','))

/-- Embedding of `to_number` (src/telegram_bot.py:91-103). `None` maps to
`none`; ints, floats and bools (a Python `bool` is an `int`) convert directly;
otherwise the stripped string is checked against the null-words, every comma
is removed, and a float parse is attempted, with `none` on failure. -/
def to_number (v : Val) : Option ℚ :=
  match v with
  | .vnull => none
  | .vnum q => some q
  | .vbool b => some (if b then 1 else 0)
  | v =>
    let s := pyStrip (pyStr v)
    if s = "" ∨ pyLower s = "null" ∨ pyLower s = "none" ∨ pyLower s = "nan" then none
    else pyFloat? (removeCommas s)

/-- Embedding of `vat_yes_no` (src/telegram_bot.py:105-109). -/
def vat_yes_no (vat_amount : Val) : String :=
  match to_number vat_amount with
  | none => "No"
  | some num => if num > 0 then "Yes" else "No"

/-- Exceptions surfaced by the extraction pipeline: `ValueError` raised by
`clean_json_only`, and `json.JSONDecodeError` raised by `json.loads`. -/
inductive PyErr where
  | valueError (msg : String) : PyErr
  | jsonDecodeError : PyErr
deriving DecidableEq

/-- Python `str.find(c)` on a character list: index of the first occurrence,
`-1` when absent. -/
def pyFindChar (t : List Char) (c : Char) : Int :=
  match t.findIdx? (fun x => x = c) with
  | some i => (i : Int)
  | none => -1

/-- Python `str.rfind(c)` on a character list: index of the last occurrence,
`-1` when absent. -/
def pyRfindChar (t : List Char) (c : Char) : Int :=
  match t.reverse.findIdx? (fun x => x = c) with
  | some i => ((t.length - 1 - i : Nat) : Int)
  | none => -1

/-- Embedding of `clean_json_only` (src/telegram_bot.py:80-86). -/
def clean_json_only (text : String) : Except PyErr String :=
  let t := (pyStrip text).toList
  let start := pyFindChar t '\x7b'
  let stop := pyRfindChar t '\x7d'
  if start = -1 ∨ stop = -1 ∨ stop ≤ start then
    .error (.valueError "Model did not return valid JSON.")
  else
    .ok (String.mk ((t.drop start.toNat).take (stop.toNat + 1 - start.toNat)))

/-- Embedding of lines 200-201 of `extract_with_ai`:
`data = json.loads(clean_json_only(raw))`. The strict JSON parser `json.loads`
is stdlib code, taken as an abstract parameter; its failure raises
`JSONDecodeError`, and neither exception is caught at this level. -/
def extract_json_stage (parse : String → Option Val) (raw : String) : Except PyErr Val :=
  match clean_json_only raw with
  | .error e => .error e
  | .ok span =>
    match parse span with
    | some v => .ok v
    | none => .error .jsonDecodeError

/-- A Python `datetime` restricted to its date fields. -/
structure PyDate where
  year : Nat
  month : Nat
  day : Nat
deriving DecidableEq

/-- Gregorian leap-year rule, as implemented by Python's `datetime`. -/
def isLeap (y : Nat) : Bool :=
  y % 4 = 0 && (y % 100 ≠ 0 || y % 400 = 0)

def daysInMonth (y m : Nat) : Nat :=
  if m = 2 then (if isLeap y then 29 else 28)
  else if m = 4 ∨ m = 6 ∨ m = 9 ∨ m = 11 then 30
  else 31

/-- Model of the `datetime` constructor's validation: `MINYEAR = 1`,
`MAXYEAR = 9999`, month in `1..12`, day in `1..days_in_month`. -/
def mkDatetime (y m d : Nat) : Option PyDate :=
  if 1 ≤ y ∧ y ≤ 9999 ∧ 1 ≤ m ∧ m ≤ 12 ∧ 1 ≤ d ∧ d ≤ daysInMonth y m then
    some ⟨y, m, d⟩
  else none

/-- Directives appearing in the repository's `strptime` format strings. -/
inductive Dir where
  | dY : Dir
  | dm : Dir
  | dd : Dir
  | dy : Dir
  | db : Dir
  | dB : Dir
  | lit (c : Char) : Dir
deriving DecidableEq

/-- Translate a `strptime` format string into directives (only the directives
the repository uses are recognized). -/
def parseFmt : List Char → Option (List Dir)
  | [] => some []
  | '%' :: c :: rest =>
    (match c with
     | 'Y' => some Dir.dY
     | 'm' => some Dir.dm
     | 'd' => some Dir.dd
     | 'y' => some Dir.dy
     | 'b' => some Dir.db
     | 'B' => some Dir.dB
     | _ => none).bind (fun d => (parseFmt rest).map (fun ds => d :: ds))
  | c :: rest => (parseFmt rest).map (fun ds => Dir.lit c :: ds)

inductive Tag where
  | ty : Tag
  | tm : Tag
  | td : Tag
deriving DecidableEq

/-- Exactly `n` leading digits. -/
def parseNDigits (n : Nat) (cs : List Char) : Option (Nat × List Char) :=
  let pre := cs.take n
  if pre.length = n && pre.all Char.isDigit then some (digitsToNat pre, cs.drop n)
  else none

/-- Greedy one-or-two-digit number in the style of `_strptime`'s regexes:
prefer a two-digit match satisfying `valid2`, else a one-digit match
satisfying `valid1`. -/
def take2Digit (cs : List Char) (valid2 valid1 : Nat → Bool) : Option (Nat × List Char) :=
  match cs with
  | a :: b :: t =>
    if a.isDigit && b.isDigit && valid2 (10 * digitVal a + digitVal b) then
      some (10 * digitVal a + digitVal b, t)
    else if a.isDigit && valid1 (digitVal a) then some (digitVal a, b :: t)
    else none
  | [a] => if a.isDigit && valid1 (digitVal a) then some (digitVal a, []) else none
  | [] => none

def monthAbbrs : List String :=
  ["jan", "feb", "mar", "apr", "may", "jun", "jul", "aug", "sep", "oct", "nov", "dec"]

def monthNames : List String :=
  ["january", "february", "march", "april", "may", "june", "july", "august",
   "september", "october", "november", "december"]

/-- Case-insensitive month-name match against a list of names (the names are
prefix-free, so first-match is longest-match). Returns the 1-based month. -/
def matchMonth : List String → Nat → List Char → Option (Nat × List Char)
  | [], _, _ => none
  | n :: ns, k, cs =>
    let nl := n.toList
    if (cs.take nl.length).map Char.toLower = nl then some (k, cs.drop nl.length)
    else matchMonth ns (k + 1) cs

/-- Match one directive against the input, in the manner of `_strptime`'s
compiled regexes (case-insensitive; format whitespace matches a run of input
whitespace). Produces field assignments and the remaining input. -/
def matchDir (d : Dir) (cs : List Char) : Option (List (Tag × Nat) × List Char) :=
  match d with
  | .dY => (parseNDigits 4 cs).map (fun p => ([(Tag.ty, p.1)], p.2))
  | .dy =>
    (parseNDigits 2 cs).map
      (fun p => ([(Tag.ty, if p.1 ≤ 68 then 2000 + p.1 else 1900 + p.1)], p.2))
  | .dm =>
    (take2Digit cs (fun v => 1 ≤ v && v ≤ 12) (fun v => 1 ≤ v && v ≤ 9)).map
      (fun p => ([(Tag.tm, p.1)], p.2))
  | .dd =>
    (take2Digit cs (fun v => 1 ≤ v && v ≤ 31) (fun v => 1 ≤ v && v ≤ 9)).map
      (fun p => ([(Tag.td, p.1)], p.2))
  | .db => (matchMonth monthAbbrs 1 cs).map (fun p => ([(Tag.tm, p.1)], p.2))
  | .dB => (matchMonth monthNames 1 cs).map (fun p => ([(Tag.tm, p.1)], p.2))
  | .lit c =>
    if c.isWhitespace then
      let w := cs.span Char.isWhitespace
      if w.1.isEmpty then none else some ([], w.2)
    else
      match cs with
      | c0 :: t => if c0.toLower = c.toLower then some ([], t) else none
      | [] => none

/-- Run the directives over the whole input; `_strptime` raises
"unconverted data remains" unless the input is consumed exactly. -/
def runDirs : List Dir → List Char → Option (List (Tag × Nat))
  | [], [] => some []
  | [], _ :: _ => none
  | d :: ds, cs =>
    (matchDir d cs).bind (fun p => (runDirs ds p.2).map (fun more => p.1 ++ more))

def getTag (as : List (Tag × Nat)) (t : Tag) (dflt : Nat) : Nat :=
  match as.find? (fun p => p.1 = t) with
  | some p => p.2
  | none => dflt

/-- Model of `datetime.strptime(s, fmt)` restricted to the directives the
repository uses, followed by `datetime` construction (with `_strptime`'s
defaults of year 1900, month 1, day 1 for unset fields). -/
def strptime (s fmt : String) : Option PyDate := do
  let dirs ← parseFmt fmt.toList
  let as ← runDirs dirs s.toList
  mkDatetime (getTag as Tag.ty 1900) (getTag as Tag.tm 1) (getTag as Tag.td 1)

/-- The format list of `normalize_date_yyyy_mm_dd_slash`
(src/telegram_bot.py:116-127). -/
def fmts : List String :=
  ["%Y-%m-%d", "%Y/%m/%d", "%d-%m-%Y", "%d/%m/%Y", "%d-%m-%y", "%d/%m/%y",
   "%d-%b-%y", "%d-%b-%Y", "%d %b %Y", "%d %B %Y"]

/-- First format that parses, in order (the source's `for f in fmts` loop). -/
def tryFormats : List String → String → Option PyDate
  | [], _ => none
  | f :: fs, s =>
    match strptime s f with
    | some d => some d
    | none => tryFormats fs s

/-- Model of `str.replace("Z", "+00:00")`. -/
def replaceZ : List Char → List Char
  | [] => []
  | c :: t =>
    if c = 'Z' then '+' :: '0' :: '0' :: ':' :: '0' :: '0' :: replaceZ t
    else c :: replaceZ t

/-- ISO calendar date: `YYYY-MM-DD` (extended) or `YYYYMMDD` (basic). -/
def parseIsoDate (cs : List Char) : Option (Nat × Nat × Nat × List Char) :=
  (parseNDigits 4 cs).bind (fun p1 =>
    match p1.2 with
    | '-' :: r2 =>
      (parseNDigits 2 r2).bind (fun p2 =>
        match p2.2 with
        | '-' :: r4 =>
          (parseNDigits 2 r4).map (fun p3 => (p1.1, p2.1, p3.1, p3.2))
        | _ => none)
    | r1 =>
      (parseNDigits 2 r1).bind (fun p2 =>
        (parseNDigits 2 p2.2).map (fun p3 => (p1.1, p2.1, p3.1, p3.2))))

/-- Optional fractional seconds: `.` or `,` followed by at least one digit. -/
def parseFrac (cs : List Char) : Option (List Char) :=
  match cs with
  | '.' :: t =>
    let dR := t.span Char.isDigit
    if dR.1.isEmpty then none else some dR.2
  | ',' :: t =>
    let dR := t.span Char.isDigit
    if dR.1.isEmpty then none else some dR.2
  | t => some t

/-- ISO time-of-day `HH[:MM[:SS[.ffff]]]` with range checks. -/
def parseIsoTime (cs : List Char) : Option (List Char) := do
  let p1 ← parseNDigits 2 cs
  if 23 < p1.1 then none
  else
    match p1.2 with
    | ':' :: r2 => do
      let p2 ← parseNDigits 2 r2
      if 59 < p2.1 then none
      else
        match p2.2 with
        | ':' :: r4 => do
          let p3 ← parseNDigits 2 r4
          if 59 < p3.1 then none else parseFrac p3.2
        | r => some r
    | r => some r

/-- Optional UTC offset `±HH[:MM[:SS]]` with range checks. -/
def parseIsoOffset (cs : List Char) : Option (List Char) :=
  match cs with
  | [] => some []
  | c :: t =>
    if c = '+' ∨ c = '-' then
      (parseNDigits 2 t).bind (fun p1 =>
        if 23 < p1.1 then none
        else
          match p1.2 with
          | ':' :: r2 =>
            (parseNDigits 2 r2).bind (fun p2 =>
              if 59 < p2.1 then none
              else
                match p2.2 with
                | ':' :: r4 =>
                  (parseNDigits 2 r4).bind (fun p3 => if 59 < p3.1 then none else some p3.2)
                | r => some r)
          | r => some r)
    else none

/-- Model of Python `datetime.fromisoformat`, restricted to the grammar
`YYYY-MM-DD` or `YYYYMMDD`, optionally followed by any one-character
separator, an extended-syntax time, and an offset. The repository only
reaches this after the ten explicit formats have failed, and only the date
fields survive into the output. -/
def pyFromIso (s : String) : Option PyDate := do
  let (y, m, d, rest) ← parseIsoDate s.toList
  match rest with
  | [] => mkDatetime y m d
  | _sep :: t => do
    let r1 ← parseIsoTime t
    let r2 ← parseIsoOffset r1
    if r2.isEmpty then mkDatetime y m d else none

def digitChar10 (k : Nat) : Char :=
  match k % 10 with
  | 0 => '0'
  | 1 => '1'
  | 2 => '2'
  | 3 => '3'
  | 4 => '4'
  | 5 => '5'
  | 6 => '6'
  | 7 => '7'
  | 8 => '8'
  | _ => '9'

/-- Model of `strftime("%Y/%m/%d")` on the validated range `year ≤ 9999`:
zero-padded 4-digit year, 2-digit month and day (the padding CPython's own
documentation specifies for these directives). -/
def fmtYMDSlash (d : PyDate) : String :=
  String.mk
    [digitChar10 (d.year / 1000), digitChar10 (d.year / 100),
     digitChar10 (d.year / 10), digitChar10 d.year, '/',
     digitChar10 (d.month / 10), digitChar10 d.month, '/',
     digitChar10 (d.day / 10), digitChar10 d.day]

/-- The canonical output shape `\d\d\d\d/\d\d/\d\d`. -/
def isYMDSlash (s : String) : Bool :=
  match s.toList with
  | [a, b, c, d, s1, e, f, s2, g, h] =>
    a.isDigit && b.isDigit && c.isDigit && d.isDigit && s1 == '/' &&
    e.isDigit && f.isDigit && s2 == '/' && g.isDigit && h.isDigit
  | _ => false

/-- Embedding of `normalize_date_yyyy_mm_dd_slash` (src/telegram_bot.py:111-139).
The ambient "current UTC date" consulted by the two fallback branches is
passed in as `today`. The guard expression `str(raw).strip() if raw is not
None else ""` is exactly `safe_str`. -/
def normalize_date_yyyy_mm_dd_slash (raw : Val) (today : PyDate) : String :=
  let s := safe_str raw
  if s = "" then fmtYMDSlash today
  else
    match tryFormats fmts s with
    | some d => fmtYMDSlash d
    | none =>
      match pyFromIso (String.mk (replaceZ s.toList)) with
      | some d => fmtYMDSlash d
      | none => fmtYMDSlash today

/-- The closed set accepted for `sub_category` (src/telegram_bot.py:208). -/
def allowed_sub_categories : List String :=
  ["Gas", "Grocery", "Restaurant", "Office Supplies", "Utilities", "Transport",
   "Maintenance", "Other"]

/-- Embedding of one pass of the items-text loop (src/telegram_bot.py:221-245):
`none` for entries the loop skips (non-dicts, and dicts whose six displayed
fields are all empty), otherwise the " | "-joined fragment. -/
def itemLine (it : Val) : Option String :=
  match it with
  | .vdict kvs =>
    let name := safe_str (dictGet kvs "name")
    let qty := safe_str (dictGet kvs "qty")
    let rate := safe_str (dictGet kvs "rate")
    let disc := safe_str (dictGet kvs "discount")
    let vat_i := safe_str (dictGet kvs "vat")
    let lt := safe_str (dictGet kvs "line_total")
    if name = "" ∧ qty = "" ∧ rate = "" ∧ disc = "" ∧ vat_i = "" ∧ lt = "" then none
    else
      let parts :=
        (if name = "" then [] else [name]) ++
        (if qty = "" then [] else ["qty " ++ qty]) ++
        (if rate = "" then [] else ["rate " ++ rate]) ++
        (if disc = "" then [] else ["disc " ++ disc]) ++
        (if vat_i = "" then [] else ["vat " ++ vat_i]) ++
        (if lt = "" then [] else ["line " ++ lt])
      some (String.intercalate " | " parts)
  | _ => none

/-- The pure result dict of `extract_with_ai` (src/telegram_bot.py:251-260). -/
structure InvoiceRecord where
  date : String
  supplier : String
  net_total : String
  vat_flag : String
  invoice_vat_no : Bool
  sub_category : String
  items : List Val
  items_text : String

/-- Embedding of the record-building tail of `extract_with_ai`
(src/telegram_bot.py:203-260), from the parsed JSON dict `data` to the
returned result dict. `today` is the ambient UTC date used by the date
normalizer's fallbacks. -/
def build_record (data : List (String × Val)) (today : PyDate) : InvoiceRecord :=
  let date_val := normalize_date_yyyy_mm_dd_slash (dictGet data "date") today
  let supplier_val := safe_str (dictGet data "supplier")
  let net_total_val := safe_str (dictGet data "net_total")
  let subcat0 := safe_str (dictGet data "sub_category")
  let subcat1 := if subcat0 = "" then "Other" else subcat0
  let subcat_val := if allowed_sub_categories.contains subcat1 then subcat1 else "Other"
  let vat_flag := vat_yes_no (dictGet data "vat_amount")
  let invoice_vat_no := vat_flag == "No"
  let items : List Val :=
    match dictGet data "items" with
    | .vlist xs => xs
    | _ => []
  let items_text0 := pyStrip (String.intercalate "\n" (items.filterMap itemLine))
  let items_text := if items_text0 = "" then "UNREADABLE_ITEMS" else items_text0
  ⟨date_val, supplier_val, net_total_val, vat_flag, invoice_vat_no, subcat_val,
   items, items_text⟩

/-- One appended row of Sheet1 (src/telegram_bot.py:290-301): all cells are
strings; `paid_by` is the Telegram sender name. -/
def header_row (rec : InvoiceRecord) (paid_by : String) : List String :=
  [rec.date, rec.supplier, rec.net_total, rec.vat_flag, rec.sub_category,
   rec.items_text, paid_by]

/-- A spreadsheet cell as passed to `append_row`: a string or a number. -/
inductive Cell where
  | cstr (s : String) : Cell
  | cnum (q : ℚ) : Cell
deriving DecidableEq

/-- The sentinel Sheet2 row (src/telegram_bot.py:348-361 and 363-376). -/
def sentinel_row (date supplier paid_by : String) : List Cell :=
  [.cstr date, .cstr supplier, .cstr "UNREADABLE_ITEMS", .cstr "", .cstr "",
   .cstr "", .cnum 0, .cstr "", .cstr paid_by]

/-- Embedding of one pass of the Sheet2 item loop (src/telegram_bot.py:309-345):
`none` for entries the loop skips (non-dicts, empty name), otherwise the
appended row. -/
def detailRowOfItem (date supplier : String) (inv_vat_no : Bool) (paid_by : String)
    (item : Val) : Option (List Cell) :=
  match item with
  | .vdict kvs =>
    let name := safe_str (dictGet kvs "name")
    if name = "" then none
    else
      let qty := (to_number (dictGet kvs "qty")).getD 0
      let rate := (to_number (dictGet kvs "rate")).getD 0
      let discount := (to_number (dictGet kvs "discount")).getD 0
      let vat_i : ℚ := if inv_vat_no then 0 else (to_number (dictGet kvs "vat")).getD 0
      let total_price : ℚ :=
        match to_number (dictGet kvs "line_total") with
        | some lt => lt
        | none => (qty * rate) - discount + vat_i
      some [.cstr date, .cstr supplier, .cstr name, .cnum qty, .cnum rate,
            .cnum discount, .cnum vat_i, .cnum total_price, .cstr paid_by]
  | _ => none

/-- Embedding of the Sheet2 projection (src/telegram_bot.py:305-376): the rows
appended for the retained items, or the single sentinel row when the item list
is empty or no item was written (`wrote_any` stayed false). -/
def detail_rows (rec : InvoiceRecord) (paid_by : String) : List (List Cell) :=
  if rec.items.isEmpty then [sentinel_row rec.date rec.supplier paid_by]
  else
    let rows := rec.items.filterMap
      (detailRowOfItem rec.date rec.supplier rec.invoice_vat_no paid_by)
    if rows.isEmpty then [sentinel_row rec.date rec.supplier paid_by] else rows

/-- A line item the Sheet2 loop retains: a key-value record whose name is
nonempty after trimming (the claims' notion of a "retained line item"). -/
def retainedP (it : Val) : Bool :=
  match it with
  | .vdict kvs => safe_str (dictGet kvs "name") != ""
  | _ => false

theorem digitChar10_isDigit (k : Nat) : (digitChar10 k).isDigit = true := by
  unfold digitChar10
  split <;> decide

theorem isYMDSlash_fmtYMDSlash (d : PyDate) : isYMDSlash (fmtYMDSlash d) = true := by
  simp [fmtYMDSlash, isYMDSlash, String.toList, digitChar10_isDigit]

theorem ne_empty_of_isYMDSlash (s : String) (h : isYMDSlash s = true) : s ≠ "" := by
  intro he
  subst he
  simp [isYMDSlash] at h

theorem vat_flag_cases (v : Val) : vat_yes_no v = "Yes" ∨ vat_yes_no v = "No" := by
  unfold vat_yes_no
  cases to_number v
  · exact Or.inr rfl
  · dsimp only
    split
    · exact Or.inl rfl
    · exact Or.inr rfl

theorem length_filterMap_eq_countP {α β : Type} (f : α → Option β) (l : List α) :
    (l.filterMap f).length = l.countP (fun a => (f a).isSome) := by
  induction l with
  | nil => rfl
  | cons a t ih =>
    cases h : f a <;> simp [List.filterMap_cons, h, List.countP_cons, ih]

theorem isSome_detailRowOfItem (date supplier : String) (b : Bool) (paid : String) (it : Val) :
    (detailRowOfItem date supplier b paid it).isSome = retainedP it := by
  cases it with
  | vdict kvs =>
    by_cases h : safe_str (dictGet kvs "name") = "" <;> simp [detailRowOfItem, retainedP, h]
  | vnull => rfl
  | vbool b => rfl
  | vnum q => rfl
  | vstr s => rfl
  | vlist xs => rfl

/-- C1: the claim's comma/period disambiguation is refuted on the code. The
source strips every comma before parsing, so "13,05" becomes 1305 (not the
claimed 13.05), and a period is always a decimal point, so "13.050" becomes
13.05 (not the claimed 13050.0). -/
theorem claim_C1_counterexample :
    to_number (Val.vstr "13,05") = some 1305 ∧ (1305 : ℚ) ≠ mkRat 1305 100 ∧
    to_number (Val.vstr "13.050") = some (mkRat 1305 100) ∧ mkRat 1305 100 ≠ 13050 :=
  ⟨by decide, by decide, by decide, by decide⟩

/-- C1 (amended): `to_number` removes every comma unconditionally (commas are
always thousands separators) and a period is always a decimal point; hence
"13,050" parses to 13050.0, "13.050" to 13.05, "13,05" to 1305.0 and "13.05"
to 13.05; and on every string input the result is the null-word check followed
by a float parse of the comma-stripped trimmed string. -/
theorem claim_C1_amended :
    to_number (Val.vstr "13,050") = some 13050 ∧
    to_number (Val.vstr "13.050") = some (mkRat 1305 100) ∧
    to_number (Val.vstr "13,05") = some 1305 ∧
    to_number (Val.vstr "13.05") = some (mkRat 1305 100) ∧
    (∀ s : String,
      to_number (Val.vstr s) =
        (let t := pyStrip s
         if t = "" ∨ pyLower t = "null" ∨ pyLower t = "none" ∨ pyLower t = "nan" then none
         else pyFloat? (removeCommas t))) :=
  ⟨by decide, by decide, by decide, by decide, fun s => rfl⟩

/-- C2: refuted as stated: when parsing fails, `to_number` does not hand back
the original string; it returns `None` (its annotated type is
`Optional[float]`), as the evaluation of the failing input "abc" shows. -/
theorem claim_C2_counterexample : to_number (Val.vstr "abc") = none := by decide

/-- C2 (amended): for every string input that still fails to parse as a float
after comma removal, the normalizer returns `None` and never raises; callers
that require a float must check for `None`. -/
theorem claim_C2_amended (s : String)
    (h : pyFloat? (removeCommas (pyStrip s)) = none) :
    to_number (Val.vstr s) = none := by
  show (let t := pyStrip s
        if t = "" ∨ pyLower t = "null" ∨ pyLower t = "none" ∨ pyLower t = "nan" then none
        else pyFloat? (removeCommas t)) = none
  dsimp only
  split
  · rfl
  · exact h

theorem claim_C2_witness : to_number (Val.vstr "x1x") = none :=
  claim_C2_amended "x1x" (by decide)

/-- C6: for every VAT-amount value, the flag is "Yes" exactly when the
normalizer yields a numeric value strictly greater than zero, and "No"
exactly when it yields `None` or a value that is zero or negative. -/
theorem claim_C6_thm (v : Val) :
    (vat_yes_no v = "Yes" ∨ vat_yes_no v = "No")
    ∧ (vat_yes_no v = "Yes" ↔ ∃ q : ℚ, to_number v = some q ∧ 0 < q)
    ∧ (vat_yes_no v = "No" ↔
        (to_number v = none ∨ ∃ q : ℚ, to_number v = some q ∧ q ≤ 0)) := by
  refine ⟨vat_flag_cases v, ?_, ?_⟩ <;>
    · unfold vat_yes_no
      cases h : to_number v with
      | none => simp
      | some q =>
        by_cases hq : q > 0 <;>
          simp [hq, le_of_not_lt, not_le_of_lt, lt_irrefl]

theorem coerced_subcat_mem (s : String) :
    (if allowed_sub_categories.contains s then s else "Other") ∈ allowed_sub_categories := by
  split
  · next h => exact List.mem_of_elem_eq_true h
  · decide

theorem coerced_subcat_spec (s0 : String) :
    (if allowed_sub_categories.contains (if s0 = "" then "Other" else s0)
     then (if s0 = "" then "Other" else s0) else "Other") ∈ allowed_sub_categories
    ∧ (s0 = "" →
        (if allowed_sub_categories.contains (if s0 = "" then "Other" else s0)
         then (if s0 = "" then "Other" else s0) else "Other") = "Other")
    ∧ (s0 ∉ allowed_sub_categories →
        (if allowed_sub_categories.contains (if s0 = "" then "Other" else s0)
         then (if s0 = "" then "Other" else s0) else "Other") = "Other")
    ∧ (s0 ∈ allowed_sub_categories →
        (if allowed_sub_categories.contains (if s0 = "" then "Other" else s0)
         then (if s0 = "" then "Other" else s0) else "Other") = s0) := by
  refine ⟨coerced_subcat_mem _, ?_, ?_, ?_⟩
  · intro h
    subst h
    simp
  · intro h
    by_cases he : s0 = ""
    · simp [he]
    · simp only [he, if_false]
      cases hc : allowed_sub_categories.contains s0 with
      | true => exact absurd (List.mem_of_elem_eq_true hc) h
      | false => simp [hc]
  · intro h
    have he : s0 ≠ "" := by
      intro he
      subst he
      exact absurd h (by decide)
    have hc : allowed_sub_categories.contains s0 = true := List.elem_eq_true_of_mem h
    simp [he, hc]
    intro h2
    exact absurd h h2

/-- C8: the `sub_category` field of every built record lies in the closed
set of allowed sub-categories; a missing value (empty after trimming) and an
unrecognized value both coerce exactly to "Other", and a recognized value is
kept unchanged. -/
theorem claim_C8_thm (data : List (String × Val)) (today : PyDate) :
    (build_record data today).sub_category ∈ allowed_sub_categories
    ∧ (safe_str (dictGet data "sub_category") = "" →
        (build_record data today).sub_category = "Other")
    ∧ (safe_str (dictGet data "sub_category") ∉ allowed_sub_categories →
        (build_record data today).sub_category = "Other")
    ∧ (safe_str (dictGet data "sub_category") ∈ allowed_sub_categories →
        (build_record data today).sub_category = safe_str (dictGet data "sub_category")) :=
  coerced_subcat_spec (safe_str (dictGet data "sub_category"))

theorem claim_C8_witness :
    (build_record [("sub_category", Val.vstr "Pizza")] (PyDate.mk 2026 10 12)).sub_category
      = "Other" :=
  (claim_C8_thm [("sub_category", Val.vstr "Pizza")] (PyDate.mk 2026 10 12)).2.2.1
    (by decide)

/-- C3: for every retained line item (dict with nonempty trimmed name), the
appended Sheet2 row uses the parsed `line_total` when it parses, and
otherwise `(qty * rate) - discount + vat`, with each numeric field defaulting
to 0 when absent or unparseable, and with the per-line vat forced to 0
whenever the header flag `inv_no` says VAT is absent; in Scenario D a header
VAT amount "0.000" yields flag "No", so an item vat "5" is ignored and the
computed total is `2 * 3 = 6`. -/
theorem claim_C3_thm (date supplier paid : String) (inv_no : Bool)
    (kvs : List (String × Val)) (h : safe_str (dictGet kvs "name") ≠ "") :
    (detailRowOfItem date supplier inv_no paid (Val.vdict kvs) =
      some [Cell.cstr date, Cell.cstr supplier, Cell.cstr (safe_str (dictGet kvs "name")),
            Cell.cnum ((to_number (dictGet kvs "qty")).getD 0),
            Cell.cnum ((to_number (dictGet kvs "rate")).getD 0),
            Cell.cnum ((to_number (dictGet kvs "discount")).getD 0),
            Cell.cnum (if inv_no then 0 else (to_number (dictGet kvs "vat")).getD 0),
            Cell.cnum ((to_number (dictGet kvs "line_total")).getD
              (((to_number (dictGet kvs "qty")).getD 0) *
                  ((to_number (dictGet kvs "rate")).getD 0)
                - (to_number (dictGet kvs "discount")).getD 0
                + (if inv_no then 0 else (to_number (dictGet kvs "vat")).getD 0))),
            Cell.cstr paid])
    ∧ vat_yes_no (Val.vstr "0.000") = "No"
    ∧ detailRowOfItem "2024/01/01" "S" (vat_yes_no (Val.vstr "0.000") == "No") "P"
        (Val.vdict [("name", Val.vstr "pen"), ("qty", Val.vstr "2"),
                    ("rate", Val.vstr "3"), ("vat", Val.vstr "5")]) =
      some [Cell.cstr "2024/01/01", Cell.cstr "S", Cell.cstr "pen", Cell.cnum 2,
            Cell.cnum 3, Cell.cnum 0, Cell.cnum 0, Cell.cnum 6, Cell.cstr "P"] := by
  refine ⟨?_, by decide, by with_unfolding_all decide⟩
  simp only [detailRowOfItem]
  rw [if_neg h]
  cases hlt : to_number (dictGet kvs "line_total") <;> simp [hlt]

theorem claim_C3_witness :
    (detailRowOfItem "D" "S" false "P"
        (Val.vdict [("name", Val.vstr "pen"), ("qty", Val.vstr "2"),
                    ("rate", Val.vstr "3"), ("vat", Val.vstr "5")]) =
      some [Cell.cstr "D", Cell.cstr "S",
            Cell.cstr (safe_str (dictGet [("name", Val.vstr "pen"), ("qty", Val.vstr "2"),
              ("rate", Val.vstr "3"), ("vat", Val.vstr "5")] "name")),
            Cell.cnum ((to_number (dictGet [("name", Val.vstr "pen"), ("qty", Val.vstr "2"),
              ("rate", Val.vstr "3"), ("vat", Val.vstr "5")] "qty")).getD 0),
            Cell.cnum ((to_number (dictGet [("name", Val.vstr "pen"), ("qty", Val.vstr "2"),
              ("rate", Val.vstr "3"), ("vat", Val.vstr "5")] "rate")).getD 0),
            Cell.cnum ((to_number (dictGet [("name", Val.vstr "pen"), ("qty", Val.vstr "2"),
              ("rate", Val.vstr "3"), ("vat", Val.vstr "5")] "discount")).getD 0),
            Cell.cnum (if false then 0 else (to_number (dictGet [("name", Val.vstr "pen"),
              ("qty", Val.vstr "2"), ("rate", Val.vstr "3"), ("vat", Val.vstr "5")] "vat")).getD 0),
            Cell.cnum ((to_number (dictGet [("name", Val.vstr "pen"), ("qty", Val.vstr "2"),
              ("rate", Val.vstr "3"), ("vat", Val.vstr "5")] "line_total")).getD
              (((to_number (dictGet [("name", Val.vstr "pen"), ("qty", Val.vstr "2"),
                  ("rate", Val.vstr "3"), ("vat", Val.vstr "5")] "qty")).getD 0) *
                  ((to_number (dictGet [("name", Val.vstr "pen"), ("qty", Val.vstr "2"),
                  ("rate", Val.vstr "3"), ("vat", Val.vstr "5")] "rate")).getD 0)
                - (to_number (dictGet [("name", Val.vstr "pen"), ("qty", Val.vstr "2"),
                  ("rate", Val.vstr "3"), ("vat", Val.vstr "5")] "discount")).getD 0
                + (if false then 0 else (to_number (dictGet [("name", Val.vstr "pen"),
                  ("qty", Val.vstr "2"), ("rate", Val.vstr "3"),
                  ("vat", Val.vstr "5")] "vat")).getD 0))),
            Cell.cstr "P"])
    ∧ vat_yes_no (Val.vstr "0.000") = "No"
    ∧ detailRowOfItem "2024/01/01" "S" (vat_yes_no (Val.vstr "0.000") == "No") "P"
        (Val.vdict [("name", Val.vstr "pen"), ("qty", Val.vstr "2"),
                    ("rate", Val.vstr "3"), ("vat", Val.vstr "5")]) =
      some [Cell.cstr "2024/01/01", Cell.cstr "S", Cell.cstr "pen", Cell.cnum 2,
            Cell.cnum 3, Cell.cnum 0, Cell.cnum 0, Cell.cnum 6, Cell.cstr "P"] :=
  claim_C3_thm "D" "S" "P" false
    [("name", Val.vstr "pen"), ("qty", Val.vstr "2"), ("rate", Val.vstr "3"),
     ("vat", Val.vstr "5")] (by decide)

/-- C4: the detail projection emits exactly one row per retained line item
(non-dict entries and entries with an empty trimmed name are discarded), is
never empty, and collapses to exactly the one sentinel row (name
"UNREADABLE_ITEMS", numeric fields empty/zero) when no item is retained. -/
theorem claim_C4_thm (rec : InvoiceRecord) (paid : String) :
    (detail_rows rec paid).length = max (rec.items.countP retainedP) 1
    ∧ detail_rows rec paid ≠ []
    ∧ (rec.items.countP retainedP = 0 →
        detail_rows rec paid = [sentinel_row rec.date rec.supplier paid]) := by
  have hcount : (rec.items.filterMap
      (detailRowOfItem rec.date rec.supplier rec.invoice_vat_no paid)).length =
      rec.items.countP retainedP := by
    rw [length_filterMap_eq_countP]
    exact List.countP_congr (fun it _ => by rw [isSome_detailRowOfItem])
  unfold detail_rows
  by_cases hE : rec.items.isEmpty
  · have : rec.items = [] := by
      cases hx : rec.items
      · rfl
      · rw [hx] at hE; simp at hE
    simp [hE, this]
  · simp only [hE, if_false, Bool.false_eq_true]
    by_cases hR : (rec.items.filterMap
        (detailRowOfItem rec.date rec.supplier rec.invoice_vat_no paid)).isEmpty
    · have h0 : rec.items.countP retainedP = 0 := by
        rw [← hcount]
        simpa [List.isEmpty_iff_length_eq_zero] using hR
      simp [hR, h0]
    · have hne : (rec.items.filterMap
          (detailRowOfItem rec.date rec.supplier rec.invoice_vat_no paid)) ≠ [] := by
        intro hx
        rw [hx] at hR
        simp at hR
      have hlen : 1 ≤ rec.items.countP retainedP := by
        rw [← hcount]
        rcases List.exists_cons_of_ne_nil hne with ⟨a, t, hx⟩
        simp [hx]
      simp only [hR, if_false, Bool.false_eq_true]
      refine ⟨by rw [hcount]; omega, hne, fun h => absurd h (by omega)⟩

theorem claim_C4_witness :
    detail_rows (InvoiceRecord.mk "2024/01/01" "S" "10" "No" true "Other" []
        "UNREADABLE_ITEMS") "P" =
      [sentinel_row "2024/01/01" "S" "P"] :=
  (claim_C4_thm (InvoiceRecord.mk "2024/01/01" "S" "10" "No" true "Other" []
    "UNREADABLE_ITEMS") "P").2.2 (by decide)

/-- C5: the date normalizer is total and always produces a nonempty string in
the canonical `YYYY/MM/DD` shape; `None` or empty input yields the current
UTC date (`today`), and so does any input that matches none of the ten
supported formats and also fails the generic ISO-8601 fallback parse. -/
theorem claim_C5_thm (raw : Val) (today : PyDate) :
    isYMDSlash (normalize_date_yyyy_mm_dd_slash raw today) = true
    ∧ normalize_date_yyyy_mm_dd_slash raw today ≠ ""
    ∧ (safe_str raw = "" →
        normalize_date_yyyy_mm_dd_slash raw today = fmtYMDSlash today)
    ∧ (tryFormats fmts (safe_str raw) = none ∧
        pyFromIso (String.mk (replaceZ (safe_str raw).toList)) = none →
        normalize_date_yyyy_mm_dd_slash raw today = fmtYMDSlash today) := by
  have hshape : isYMDSlash (normalize_date_yyyy_mm_dd_slash raw today) = true := by
    unfold normalize_date_yyyy_mm_dd_slash
    by_cases h : safe_str raw = ""
    · simp [h, isYMDSlash_fmtYMDSlash]
    · simp only [h, if_false]
      cases tryFormats fmts (safe_str raw)
      · cases pyFromIso (String.mk (replaceZ (safe_str raw).toList)) <;>
          simp [isYMDSlash_fmtYMDSlash]
      · simp [isYMDSlash_fmtYMDSlash]
  refine ⟨hshape, ne_empty_of_isYMDSlash _ hshape, ?_, ?_⟩
  · intro h
    unfold normalize_date_yyyy_mm_dd_slash
    simp [h]
  · intro h
    unfold normalize_date_yyyy_mm_dd_slash
    by_cases he : safe_str raw = ""
    · simp [he]
    · have h2 : pyFromIso (String.mk (replaceZ (safe_str raw).toList)) = none := h.2
      simp only [String.toList] at h2
      simp [he, h.1, h2]

theorem claim_C5_witness :
    normalize_date_yyyy_mm_dd_slash (Val.vstr "not a date") (PyDate.mk 2026 10 12) =
      fmtYMDSlash (PyDate.mk 2026 10 12) :=
  (claim_C5_thm (Val.vstr "not a date") (PyDate.mk 2026 10 12)).2.2.2
    ⟨by decide, by decide⟩


/-- The index of the first opening brace, stated as the claim states it. -/
def firstBraceIdx (t : List Char) : Option Nat :=
  t.findIdx? (fun c => c = '\x7b')

/-- The index of the last closing brace, stated as the claim states it. -/
def lastBraceIdx (t : List Char) : Option Nat :=
  match t.reverse.findIdx? (fun c => c = '\x7d') with
  | some i => some (t.length - 1 - i)
  | none => none

theorem clean_json_only_error_shape (text : String) (e : PyErr)
    (h : clean_json_only text = .error e) :
    e = .valueError "Model did not return valid JSON." := by
  revert h
  unfold clean_json_only
  dsimp only
  split
  · intro h
    exact (Except.error.inj h).symm
  · intro h
    exact absurd h (by simp)

/-- C7: the extractor succeeds exactly when a first `\x7b` and a last `\x7d`
exist with the latter strictly after the former, returning precisely the
spanned substring of the stripped text, and fails with the malformed-output
`ValueError` otherwise; and the calling stage propagates the strict JSON
parser's failure on the extracted span as a `JSONDecodeError` rather than
swallowing it. -/
theorem claim_C7_thm (text : String) (parse : String → Option Val) :
    (match firstBraceIdx (pyStrip text).toList, lastBraceIdx (pyStrip text).toList with
     | some i, some j =>
       if i < j then
         clean_json_only text =
           .ok (String.mk (((pyStrip text).toList.drop i).take (j + 1 - i)))
       else
         clean_json_only text = .error (.valueError "Model did not return valid JSON.")
     | _, _ =>
       clean_json_only text = .error (.valueError "Model did not return valid JSON."))
    ∧ (extract_json_stage parse text = .error .jsonDecodeError ↔
        ∃ s, clean_json_only text = .ok s ∧ parse s = none) := by
  constructor
  · unfold clean_json_only firstBraceIdx lastBraceIdx pyFindChar pyRfindChar
    dsimp only
    generalize (pyStrip text).toList = t
    cases h1 : t.findIdx? (fun c => c = '\x7b') with
    | none => simp [h1]
    | some i =>
      cases h2 : t.reverse.findIdx? (fun c => c = '\x7d') with
      | none => simp [h1, h2]
      | some ri =>
        simp only [h1, h2]
        by_cases hij : i < t.length - 1 - ri
        · rw [if_pos hij, if_neg (by omega)]
          simp only [Int.toNat_ofNat]
        · rw [if_neg hij, if_pos (Or.inr (Or.inr (by omega)))]
  · cases hc : clean_json_only text with
    | error e =>
      have he := clean_json_only_error_shape text e hc
      subst he
      simp [extract_json_stage, hc]
    | ok span =>
      cases hp : parse span with
      | none => simp [extract_json_stage, hc, hp]
      | some v => simp [extract_json_stage, hc, hp]

/-- C9: refuted as stated in two places. First, an item carrying a nonempty
`line_total` also contributes a `line T` fragment, which the claimed fragment
shape "name | qty X | rate Y | disc Z | vat W" does not admit: the item
`\x7bname: "x", line_total: "7"\x7d` produces "x | line 7" rather than the "x"
the claimed shape dictates. Second, when no fragment survives, the items field
is the sentinel "UNREADABLE_ITEMS", not the (empty) newline-joined
concatenation. -/
theorem claim_C9_counterexample :
    itemLine (Val.vdict [("name", Val.vstr "x"), ("line_total", Val.vstr "7")]) =
      some "x | line 7"
    ∧ "x | line 7" ≠ "x"
    ∧ (build_record [("items", Val.vlist [Val.vstr "junk"])]
        (PyDate.mk 2026 10 12)).items_text = "UNREADABLE_ITEMS"
    ∧ "UNREADABLE_ITEMS" ≠ "" :=
  ⟨by decide, by decide, by decide, by decide⟩

/-- C9 (amended): the header projection emits exactly one row per invoice of
the shape `[date, supplier, net_total, vat_flag, sub_category, items_text,
paid_by]`; the VAT field is "Yes" or "No"; `items_text` is the newline-joined
concatenation of per-item fragments of the shape
"name | qty X | rate Y | disc Z | vat W | line T" with empty-field fragments
omitted, falling back to "UNREADABLE_ITEMS" when no fragment survives; and
the row ends with the paid-by (attributed-to) value. -/
theorem claim_C9_amended (data : List (String × Val)) (today : PyDate) (paid : String) :
    header_row (build_record data today) paid =
      [(build_record data today).date, (build_record data today).supplier,
       (build_record data today).net_total, (build_record data today).vat_flag,
       (build_record data today).sub_category, (build_record data today).items_text, paid]
    ∧ ((build_record data today).vat_flag = "Yes" ∨
        (build_record data today).vat_flag = "No")
    ∧ (build_record data today).items_text =
        (if pyStrip (String.intercalate "\n"
              ((build_record data today).items.filterMap itemLine)) = ""
         then "UNREADABLE_ITEMS"
         else pyStrip (String.intercalate "\n"
              ((build_record data today).items.filterMap itemLine)))
    ∧ itemLine (Val.vdict [("name", Val.vstr "A"), ("qty", Val.vstr "2"),
        ("rate", Val.vstr "3"), ("discount", Val.vstr "1"), ("vat", Val.vstr "4"),
        ("line_total", Val.vstr "9")]) =
      some "A | qty 2 | rate 3 | disc 1 | vat 4 | line 9"
    ∧ (header_row (build_record data today) paid).getLast? = some paid :=
  ⟨rfl, vat_flag_cases (dictGet data "vat_amount"), rfl, by decide, rfl⟩

/-- C10: when the raw dict's "items" value is missing, null, or not a list,
the builder treats the item list as empty without raising, and the detail
projection emits exactly the single "UNREADABLE_ITEMS" sentinel row. -/
theorem claim_C10_thm (data : List (String × Val)) (today : PyDate) (paid : String)
    (h : (dictGet data "items").isList = false) :
    (build_record data today).items = []
    ∧ detail_rows (build_record data today) paid =
        [sentinel_row (build_record data today).date
          (build_record data today).supplier paid] := by
  have hitems : (build_record data today).items = [] := by
    show (match dictGet data "items" with | Val.vlist xs => xs | _ => []) = []
    cases hv : dictGet data "items" <;> simp_all [Val.isList]
  exact ⟨hitems, by simp [detail_rows, hitems]⟩

theorem claim_C10_witness :
    (build_record [("items", Val.vstr "oops")] (PyDate.mk 2026 10 12)).items = []
    ∧ detail_rows (build_record [("items", Val.vstr "oops")] (PyDate.mk 2026 10 12)) "P" =
        [sentinel_row (build_record [("items", Val.vstr "oops")]
            (PyDate.mk 2026 10 12)).date
          (build_record [("items", Val.vstr "oops")] (PyDate.mk 2026 10 12)).supplier "P"] :=
  claim_C10_thm [("items", Val.vstr "oops")] (PyDate.mk 2026 10 12) "P" (by decide)
